import Mathlib

/-!
Verification of the Forum repository's session and reaction cores.

The definitions below are shallow embeddings of the Go source:
SQL tables become Lean lists of rows, `db.Exec` statements become pure
list transformations, and timestamps become natural numbers.
-/

namespace Forum

/-! ### Reaction engine: `post_likes` / `comment_likes`
(`internal/models/queries.go`, `TogglePostLike` / `ToggleCommentLike`)

The table `post_likes(post_id, user_id, value)` has primary key
`(post_id, user_id)`.  `TogglePostLike` runs a single upsert:

  INSERT INTO post_likes (post_id, user_id, value) VALUES (?, ?, ?)
  ON CONFLICT(post_id, user_id) DO UPDATE SET value = CASE
      WHEN post_likes.value = ? THEN 0 ELSE ? END
-/

/-- Abstract stance of a (user, target) pair, from the spec's 3-state machine. -/
inductive Stance
  | neutral
  | liked
  | disliked
deriving DecidableEq

/-- Input events of the spec's state machine. -/
inductive Event
  | pressLike
  | pressDislike
deriving DecidableEq

/-- The `value` form-field the HTTP handler sends for each event
(`handlePostLike` accepts only `1` and `-1`). -/
def Event.value : Event → Int
  | .pressLike => 1
  | .pressDislike => -1

/-- Modelled from the spec: the transition table of the 3-state machine
{Neutral, Liked, Disliked} with events {PressLike, PressDislike}.
Used only to compare the code's toggle against the specified machine. -/
def specTransition : Stance → Event → Stance
  | .neutral, .pressLike => .liked
  | .neutral, .pressDislike => .disliked
  | .liked, .pressLike => .neutral
  | .liked, .pressDislike => .disliked
  | .disliked, .pressLike => .liked
  | .disliked, .pressDislike => .neutral

/-- One row of the `post_likes` table. -/
structure PostLikeRow where
  postId : Nat
  userId : Nat
  value : Int
deriving DecidableEq

/-- One row of the `comment_likes` table. -/
structure CommentLikeRow where
  commentId : Nat
  userId : Nat
  value : Int
deriving DecidableEq

/-- `TogglePostLike` (queries.go line 156): SQLite upsert on the primary key
`(post_id, user_id)`.  If a row for the key exists, its value becomes `0`
when it already equals the requested value and the requested value
otherwise; if no row exists, a row holding the requested value is inserted. -/
def togglePostLike (t : List PostLikeRow) (postID userID : Nat) (value : Int) :
    List PostLikeRow :=
  if t.any fun r => r.postId == postID && r.userId == userID then
    t.map fun r =>
      if r.postId == postID && r.userId == userID then
        { r with value := if r.value == value then 0 else value }
      else r
  else
    t ++ [{ postId := postID, userId := userID, value := value }]

/-- `ToggleCommentLike` (queries.go line 163): the same upsert on
`comment_likes(comment_id, user_id)`. -/
def toggleCommentLike (t : List CommentLikeRow) (commentID userID : Nat) (value : Int) :
    List CommentLikeRow :=
  if t.any fun r => r.commentId == commentID && r.userId == userID then
    t.map fun r =>
      if r.commentId == commentID && r.userId == userID then
        { r with value := if r.value == value then 0 else value }
      else r
  else
    t ++ [{ commentId := commentID, userId := userID, value := value }]

/-- `SELECT value FROM post_likes WHERE post_id = ? AND user_id = ?`. -/
def lookupPostLike (t : List PostLikeRow) (postID userID : Nat) : Option Int :=
  (t.find? fun r => r.postId == postID && r.userId == userID).map fun r => r.value

/-- `SELECT value FROM comment_likes WHERE comment_id = ? AND user_id = ?`. -/
def lookupCommentLike (t : List CommentLikeRow) (commentID userID : Nat) : Option Int :=
  (t.find? fun r => r.commentId == commentID && r.userId == userID).map fun r => r.value

/-- Abstraction from the stored `value` column (absent, `0`, `1`, `-1`)
to the spec's stance: `1` is Liked, `-1` is Disliked, anything else
(including the absence of a row) is Neutral. -/
def stanceOfRow (r : Option Int) : Stance :=
  match r with
  | none => .neutral
  | some v => if v = 1 then .liked else if v = -1 then .disliked else .neutral

/-- The per-key effect of the upsert's CASE expression. -/
def toggleValue (cur : Option Int) (v : Int) : Option Int :=
  match cur with
  | none => some v
  | some c => some (if c == v then 0 else v)

/-! Helper lemmas about `find?` over append and key-preserving map. -/

theorem find?_append_of_none {α : Type} (p : α → Bool) (l₁ l₂ : List α)
    (h : l₁.find? p = none) : (l₁ ++ l₂).find? p = l₂.find? p := by
  induction l₁ with
  | nil => simp
  | cons a l ih =>
    rw [List.find?_cons] at h
    cases hp : p a with
    | true => simp [hp] at h
    | false =>
      simp only [hp] at h
      simp [List.find?_cons, hp, ih h]

theorem find?_map_of_key_preserving {α : Type} (p : α → Bool) (f : α → α)
    (hf : ∀ a, p (f a) = p a) (l : List α) :
    (l.map f).find? p = (l.find? p).map f := by
  induction l with
  | nil => simp
  | cons a l ih =>
    simp only [List.map_cons, List.find?_cons, hf a]
    cases hp : p a with
    | true => simp
    | false => simpa using ih

theorem lookup_togglePostLike (t : List PostLikeRow) (p u : Nat) (v : Int) :
    lookupPostLike (togglePostLike t p u v) p u =
      toggleValue (lookupPostLike t p u) v := by
  unfold togglePostLike lookupPostLike
  by_cases h : (t.any fun r => r.postId == p && r.userId == u) = true
  · rw [if_pos h, find?_map_of_key_preserving]
    · rcases hf : t.find? (fun r => r.postId == p && r.userId == u) with _ | r
      · rw [List.find?_eq_none] at hf
        rw [List.any_eq_true] at h
        obtain ⟨r, hr, hk⟩ := h
        exact absurd hk (by simpa using hf r hr)
      · have hk := List.find?_some hf
        simp only [hf, Option.map_some']
        simp [hk, toggleValue]
    · intro r
      by_cases hk : (r.postId == p && r.userId == u) = true <;> simp [hk]
  · rw [if_neg h]
    have hn : t.find? (fun r => r.postId == p && r.userId == u) = none := by
      rw [List.find?_eq_none]
      intro r hr
      rw [List.any_eq_true] at h
      exact fun hk => h ⟨r, hr, hk⟩
    rw [find?_append_of_none _ _ _ hn, hn]
    simp [List.find?_cons, toggleValue]

theorem lookup_toggleCommentLike (t : List CommentLikeRow) (c u : Nat) (v : Int) :
    lookupCommentLike (toggleCommentLike t c u v) c u =
      toggleValue (lookupCommentLike t c u) v := by
  unfold toggleCommentLike lookupCommentLike
  by_cases h : (t.any fun r => r.commentId == c && r.userId == u) = true
  · rw [if_pos h, find?_map_of_key_preserving]
    · rcases hf : t.find? (fun r => r.commentId == c && r.userId == u) with _ | r
      · rw [List.find?_eq_none] at hf
        rw [List.any_eq_true] at h
        obtain ⟨r, hr, hk⟩ := h
        exact absurd hk (by simpa using hf r hr)
      · have hk := List.find?_some hf
        simp only [hf, Option.map_some']
        simp [hk, toggleValue]
    · intro r
      by_cases hk : (r.commentId == c && r.userId == u) = true <;> simp [hk]
  · rw [if_neg h]
    have hn : t.find? (fun r => r.commentId == c && r.userId == u) = none := by
      rw [List.find?_eq_none]
      intro r hr
      rw [List.any_eq_true] at h
      exact fun hk => h ⟨r, hr, hk⟩
    rw [find?_append_of_none _ _ _ hn, hn]
    simp [List.find?_cons, toggleValue]

theorem stance_toggleValue (cur : Option Int) (e : Event) :
    stanceOfRow (toggleValue cur e.value) = specTransition (stanceOfRow cur) e := by
  rcases cur with _ | c
  · cases e <;> rfl
  · cases e <;> by_cases h1 : c = 1 <;> by_cases h2 : c = -1 <;>
      simp_all [toggleValue, Event.value, stanceOfRow, specTransition, beq_iff_eq]

/-- A sequence of toggle requests `(postID, userID, event)` applied to the
empty `post_likes` table, each through `TogglePostLike`. -/
def applyPostToggles (ops : List (Nat × Nat × Event)) : List PostLikeRow :=
  ops.foldl (fun t o => togglePostLike t o.1 o.2.1 o.2.2.value) []

/-- C1: one `TogglePostLike` / `ToggleCommentLike` call implements the
3-state machine {Neutral, Liked, Disliked} with events {PressLike,
PressDislike}: equal stance collapses to Neutral, any other stance moves to
the requested one; the Like-Like, Like-Dislike and Like-Dislike-Dislike
round trips land on Neutral, Disliked and Neutral; the same algorithm
applies to both post and comment targets. -/
theorem toggle_implements_spec_state_machine :
    (∀ (t : List PostLikeRow) (p u : Nat) (e : Event),
        stanceOfRow (lookupPostLike (togglePostLike t p u e.value) p u) =
          specTransition (stanceOfRow (lookupPostLike t p u)) e) ∧
    (∀ (t : List CommentLikeRow) (c u : Nat) (e : Event),
        stanceOfRow (lookupCommentLike (toggleCommentLike t c u e.value) c u) =
          specTransition (stanceOfRow (lookupCommentLike t c u)) e) ∧
    stanceOfRow (lookupPostLike
      (applyPostToggles [(1, 2, .pressLike), (1, 2, .pressLike)]) 1 2) = .neutral ∧
    stanceOfRow (lookupPostLike
      (applyPostToggles [(1, 2, .pressLike), (1, 2, .pressDislike)]) 1 2) = .disliked ∧
    stanceOfRow (lookupPostLike
      (applyPostToggles
        [(1, 2, .pressLike), (1, 2, .pressDislike), (1, 2, .pressDislike)]) 1 2) = .neutral := by
  refine ⟨?_, ?_, by decide, by decide, by decide⟩
  · intro t p u e
    rw [lookup_togglePostLike]
    exact stance_toggleValue _ e
  · intro t c u e
    rw [lookup_toggleCommentLike]
    exact stance_toggleValue _ e

/-! ### Mutual exclusion of like and dislike -/

/-- The pair is Liked exactly when its stored value is `1`. -/
def isLikedB (t : List PostLikeRow) (p u : Nat) : Bool :=
  lookupPostLike t p u == some 1

/-- The pair is Disliked exactly when its stored value is `-1`. -/
def isDislikedB (t : List PostLikeRow) (p u : Nat) : Bool :=
  lookupPostLike t p u == some (-1)

/-! The second reaction variant (`utils/posts.go`): the `interactions`
table keyed by `(user_uuid, post_id)` with two boolean columns, written by
delete-then-insert. -/

/-- One row of the `interactions` table. -/
structure Interaction where
  userUuid : String
  postId : Nat
  liked : Bool
  disliked : Bool
deriving DecidableEq

/-- `ToggleLike` (utils/posts.go line 18): delete every row of the
`(user_uuid, post_id)` pair, then insert one row with
`liked = like, disliked = not like`. -/
def ToggleLike (t : List Interaction) (userUUID : String) (postID : Nat) (like : Bool) :
    List Interaction :=
  (t.filter fun r => !(r.userUuid == userUUID && r.postId == postID)) ++
    [{ userUuid := userUUID, postId := postID, liked := like, disliked := !like }]

/-- `SELECT ... FROM interactions WHERE user_uuid = ? AND post_id = ?`. -/
def lookupInteraction (t : List Interaction) (u : String) (p : Nat) : Option Interaction :=
  t.find? fun r => r.userUuid == u && r.postId == p

/-- A sequence of `ToggleLike` calls applied in order. -/
def applyInteractions (t : List Interaction) (ops : List (String × Nat × Bool)) :
    List Interaction :=
  ops.foldl (fun t o => ToggleLike t o.1 o.2.1 o.2.2) t

/-- Every stored interaction row has `disliked` equal to the negation of
`liked`. -/
def InterInv (t : List Interaction) : Prop :=
  ∀ r ∈ t, r.disliked = !r.liked

theorem interInv_toggle {t : List Interaction} (h : InterInv t)
    (u : String) (p : Nat) (like : Bool) : InterInv (ToggleLike t u p like) := by
  intro r hr
  rcases List.mem_append.mp hr with hl | hl
  · exact h r (List.mem_filter.mp hl).1
  · rcases List.mem_singleton.mp hl with rfl
    rfl

theorem interInv_apply (ops : List (String × Nat × Bool)) :
    ∀ t : List Interaction, InterInv t → InterInv (applyInteractions t ops) := by
  induction ops with
  | nil => intro t h; exact h
  | cons o ops ih =>
    intro t h
    exact ih _ (interInv_toggle h o.1 o.2.1 o.2.2)

/-- C8: from the empty store, after any finite sequence of toggles, no
(actor, target) pair is ever simultaneously Liked and Disliked — in the
single-value variant because one `value` cell cannot equal both `1` and
`-1`, and in the two-boolean variant because every inserted row has
`disliked = not liked`. -/
theorem reaction_mutual_exclusion :
    (∀ (ops : List (Nat × Nat × Event)) (p u : Nat),
        (isLikedB (applyPostToggles ops) p u &&
          isDislikedB (applyPostToggles ops) p u) = false) ∧
    (∀ (ops : List (String × Nat × Bool)) (u : String) (p : Nat) (r : Interaction),
        lookupInteraction (applyInteractions [] ops) u p = some r →
        (r.liked && r.disliked) = false) := by
  constructor
  · intro ops p u
    unfold isLikedB isDislikedB
    rcases lookupPostLike (applyPostToggles ops) p u with _ | v
    · rfl
    · by_cases h : v = 1 <;> simp [beq_iff_eq, h]
  · intro ops u p r hr
    have hinv : InterInv (applyInteractions [] ops) :=
      interInv_apply ops [] (by intro r hr; cases hr)
    have hmem : r ∈ applyInteractions [] ops := List.mem_of_find?_eq_some hr
    have := hinv r hmem
    rw [this]
    cases r.liked <;> rfl

/-- Witness for C8 at a concrete input. -/
theorem reaction_mutual_exclusion_witness :
    (isLikedB (applyPostToggles [(1, 2, Event.pressLike)]) 1 2 &&
      isDislikedB (applyPostToggles [(1, 2, Event.pressLike)]) 1 2) = false ∧
    (({ userUuid := "a", postId := 1, liked := true, disliked := false : Interaction}.liked &&
      { userUuid := "a", postId := 1, liked := true, disliked := false : Interaction}.disliked)
        = false) :=
  ⟨reaction_mutual_exclusion.1 [(1, 2, Event.pressLike)] 1 2,
   reaction_mutual_exclusion.2 [("a", 1, true)] "a" 1
     { userUuid := "a", postId := 1, liked := true, disliked := false } (by decide)⟩

/-! ### Representation of the Neutral stance -/

/-- Every row stored by a sequence of toggles carries value `1`, `0` or `-1`. -/
def ValInv (t : List PostLikeRow) : Prop :=
  ∀ r ∈ t, r.value = 1 ∨ r.value = 0 ∨ r.value = -1

theorem valInv_toggle {t : List PostLikeRow} (h : ValInv t) {v : Int}
    (hv : v = 1 ∨ v = -1) (p u : Nat) : ValInv (togglePostLike t p u v) := by
  intro r hr
  unfold togglePostLike at hr
  by_cases ha : (t.any fun r => r.postId == p && r.userId == u) = true
  · rw [if_pos ha] at hr
    obtain ⟨a, hat, rfl⟩ := List.mem_map.mp hr
    by_cases hk : (a.postId == p && a.userId == u) = true
    · rw [if_pos hk]
      by_cases hav : (a.value == v) = true
      · rw [if_pos hav]
        right; left; rfl
      · rw [if_neg hav]
        rcases hv with rfl | rfl
        · left; rfl
        · right; right; rfl
    · rw [if_neg hk]
      exact h a hat
  · rw [if_neg ha] at hr
    rcases List.mem_append.mp hr with hl | hl
    · exact h r hl
    · rcases List.mem_singleton.mp hl with rfl
      rcases hv with rfl | rfl
      · left; rfl
      · right; right; rfl

theorem valInv_foldl (ops : List (Nat × Nat × Event)) :
    ∀ t : List PostLikeRow, ValInv t →
      ValInv (ops.foldl (fun t o => togglePostLike t o.1 o.2.1 o.2.2.value) t) := by
  induction ops with
  | nil => intro t h; exact h
  | cons o ops ih =>
    intro t h
    refine ih _ (valInv_toggle h ?_ o.1 o.2.1)
    cases o.2.2 <;> [left; right] <;> rfl

/-- C9 counterexample: pressing Like twice from the empty store leaves a
row for the pair — with value `0` — rather than deleting it, so Neutral is
not represented by the absence of a row and a stored row may carry neither
like nor dislike. -/
theorem neutral_absence_counterexample :
    togglePostLike (togglePostLike [] 1 2 1) 1 2 1 =
      [{ postId := 1, userId := 2, value := 0 }] := by
  decide

/-- C9 amended: a stored reaction row carries value `1`, `0` or `-1`;
returning a pair to Neutral by pressing the same button twice leaves a row
with the explicit neutral marker `0` (absence of a row encodes Neutral only
before the first toggle). -/
theorem neutral_zero_row :
    (∀ (ops : List (Nat × Nat × Event)) (p u : Nat) (v : Int),
        lookupPostLike (applyPostToggles ops) p u = some v →
          v = 1 ∨ v = 0 ∨ v = -1) ∧
    (∀ (p u : Nat) (e : Event),
        lookupPostLike
          (togglePostLike (togglePostLike [] p u e.value) p u e.value) p u = some 0) := by
  constructor
  · intro ops p u v hv
    have hinv : ValInv (applyPostToggles ops) :=
      valInv_foldl ops [] (by intro r hr; cases hr)
    unfold lookupPostLike at hv
    rcases hf : (applyPostToggles ops).find?
        (fun r => r.postId == p && r.userId == u) with _ | r
    · rw [hf] at hv; cases hv
    · rw [hf] at hv
      obtain rfl : r.value = v := by simpa using hv
      exact hinv r (List.mem_of_find?_eq_some hf)
  · intro p u e
    rw [lookup_togglePostLike, lookup_togglePostLike]
    have h0 : lookupPostLike [] p u = none := rfl
    rw [h0]
    simp [toggleValue]

/-- Witness for C9's amended statement at a concrete input. -/
theorem neutral_zero_row_witness :
    ((0 : Int) = 1 ∨ (0 : Int) = 0 ∨ (0 : Int) = -1) ∧
    lookupPostLike
      (togglePostLike (togglePostLike [] 3 4 Event.pressDislike.value) 3 4
        Event.pressDislike.value) 3 4 = some 0 :=
  ⟨neutral_zero_row.1 [(1, 2, Event.pressLike), (1, 2, Event.pressLike)] 1 2 0 (by decide),
   neutral_zero_row.2 3 4 Event.pressDislike⟩

/-! ### The delete-then-insert variant's algebra (C10) -/

theorem find?_filter_not {α : Type} (k : α → Bool) (t : List α) :
    (t.filter fun a => !(k a)).find? k = none := by
  rw [List.find?_eq_none]
  intro a ha
  have hm := List.mem_filter.mp ha
  intro hk
  rw [hk] at hm
  simp at hm

theorem lookup_ToggleLike_self (t : List Interaction) (u : String) (p : Nat) (like : Bool) :
    lookupInteraction (ToggleLike t u p like) u p =
      some { userUuid := u, postId := p, liked := like, disliked := !like } := by
  unfold lookupInteraction ToggleLike
  rw [find?_append_of_none _ _ _ (find?_filter_not _ t)]
  simp [List.find?]

theorem ToggleLike_idempotent (t : List Interaction) (u : String) (p : Nat) (like : Bool) :
    ToggleLike (ToggleLike t u p like) u p like = ToggleLike t u p like := by
  unfold ToggleLike
  rw [List.filter_append, List.filter_filter]
  simp

theorem lookupInteraction_isSome_toggle {t : List Interaction} {u : String} {p : Nat}
    (h : (lookupInteraction t u p).isSome = true)
    (u₂ : String) (p₂ : Nat) (like : Bool) :
    (lookupInteraction (ToggleLike t u₂ p₂ like) u p).isSome = true := by
  rw [lookupInteraction, List.find?_isSome] at h ⊢
  obtain ⟨r, hr, hk⟩ := h
  by_cases he : u₂ = u ∧ p₂ = p
  · refine ⟨{ userUuid := u₂, postId := p₂, liked := like, disliked := !like }, ?_, ?_⟩
    · exact List.mem_append_right _ (List.mem_singleton.mpr rfl)
    · simp [he.1, he.2]
  · refine ⟨r, ?_, hk⟩
    refine List.mem_append_left _ (List.mem_filter.mpr ⟨hr, ?_⟩)
    simp only [Bool.not_eq_true']
    rw [Bool.eq_false_iff]
    intro hk₂
    simp only [Bool.and_eq_true, beq_iff_eq] at hk hk₂
    exact he ⟨hk₂.1.symm.trans hk.1, hk₂.2.symm.trans hk.2⟩

theorem lookupInteraction_isSome_apply (ops : List (String × Nat × Bool)) :
    ∀ {t : List Interaction} {u : String} {p : Nat},
      (lookupInteraction t u p).isSome = true →
      (lookupInteraction (applyInteractions t ops) u p).isSome = true := by
  induction ops with
  | nil => intro t u p h; exact h
  | cons o ops ih =>
    intro t u p h
    exact ih (lookupInteraction_isSome_toggle h o.1 o.2.1 o.2.2)

/-- C10: in the delete-then-insert variant, one `ToggleLike` call makes the
pair's stored interaction exactly `(liked = like, disliked = not like)`
regardless of the prior state; repeating the call changes nothing; and once
a pair has been toggled, no further sequence of `ToggleLike` calls ever
removes its row, so the pair never returns to the no-row Neutral state. -/
theorem deleteInsert_toggle_state_independent :
    (∀ (t : List Interaction) (u : String) (p : Nat) (like : Bool),
        lookupInteraction (ToggleLike t u p like) u p =
          some { userUuid := u, postId := p, liked := like, disliked := !like }) ∧
    (∀ (t : List Interaction) (u : String) (p : Nat) (like : Bool),
        ToggleLike (ToggleLike t u p like) u p like = ToggleLike t u p like) ∧
    (∀ (t : List Interaction) (u : String) (p : Nat) (like : Bool)
        (ops : List (String × Nat × Bool)),
        (lookupInteraction (applyInteractions (ToggleLike t u p like) ops) u p).isSome
          = true) := by
  refine ⟨lookup_ToggleLike_self, ToggleLike_idempotent, ?_⟩
  intro t u p like ops
  refine lookupInteraction_isSome_apply ops ?_
  rw [lookup_ToggleLike_self]
  rfl

/-! ### Session manager (`internal/models/queries.go`, `unnamed/part_001`)

The `sessions` table: `id TEXT PRIMARY KEY, user_id, created_at,
expires_at, revoked_at (nullable)`.  Timestamps are modelled as naturals. -/

/-- One row of the `sessions` table (`models.Session`). -/
structure Session where
  id : String
  userId : Nat
  createdAt : Nat
  expiresAt : Nat
  revokedAt : Option Nat
deriving DecidableEq

/-- `UPDATE sessions SET revoked_at = CURRENT_TIMESTAMP WHERE user_id = ?
AND revoked_at IS NULL` — the first statement of `CreateSession`. -/
def revokeActive (t : List Session) (userId now : Nat) : List Session :=
  t.map fun s =>
    if s.userId == userId && s.revokedAt == none then
      { s with revokedAt := some now }
    else s

/-- `CreateSession` (queries.go line 43), success path: revoke all of the
user's non-revoked sessions, then insert a fresh row with a null
`revoked_at`. -/
def createSession (t : List Session) (userId : Nat) (sid : String) (now expires : Nat) :
    List Session :=
  revokeActive t userId now ++
    [{ id := sid, userId := userId, createdAt := now, expiresAt := expires,
       revokedAt := none }]

/-- The user's session rows whose `revoked_at` is null. -/
def activeFor (t : List Session) (userId : Nat) : List Session :=
  t.filter fun s => s.userId == userId && s.revokedAt == none

theorem activeFor_revokeActive (t : List Session) (u now : Nat) :
    activeFor (revokeActive t u now) u = [] := by
  unfold activeFor revokeActive
  induction t with
  | nil => rfl
  | cons s t ih =>
    rw [List.map_cons]
    by_cases hk : (s.userId == u && s.revokedAt == none) = true
    · rw [if_pos hk, List.filter_cons, if_neg (by simp)]
      exact ih
    · rw [if_neg hk, List.filter_cons, if_neg hk]
      exact ih

/-- C2: whatever the prior contents of the sessions table, immediately
after a `CreateSession` call for user `u` exactly one of `u`'s rows has a
null `revoked_at`, and it is the row this call inserted; hence after the
Nth issuance in any sequence, the sole active session is the Nth one. -/
theorem single_active_session_after_issue
    (t : List Session) (u : Nat) (sid : String) (now expires : Nat) :
    activeFor (createSession t u sid now expires) u =
      [{ id := sid, userId := u, createdAt := now, expiresAt := expires,
         revokedAt := none }] := by
  unfold createSession
  rw [activeFor, List.filter_append]
  have h1 := activeFor_revokeActive t u now
  rw [activeFor] at h1
  rw [h1]
  simp [List.filter_cons]

/-! ### Failure semantics of issuance (C4)

`CreateSession` runs two separate `db.Exec` statements with no enclosing
transaction.  Each single SQL statement is atomic on its own, so a failing
statement leaves the table as it was before that statement — but not
before the whole operation. -/

/-- `CreateSession` with explicit failure of either statement: returns the
resulting table and whether an error was returned to the caller. -/
def createSessionResult (t : List Session) (userId : Nat) (sid : String)
    (now expires : Nat) (revokeFails insertFails : Bool) : List Session × Bool :=
  if revokeFails then (t, true)
  else
    let t₁ := revokeActive t userId now
    if insertFails then (t₁, true)
    else (t₁ ++
      [{ id := sid, userId := userId, createdAt := now, expiresAt := expires,
         revokedAt := none }], false)

/-- `handleLogin` (part_001 line 254): the session cookie is set only when
`CreateSession` returned no error. -/
def handleLoginCookie (res : List Session × Bool) (sid : String) : Option String :=
  if res.2 then none else some sid

/-- C4 counterexample: starting from one active session for user 1, a
failure of the insert statement leaves that session revoked — the stored
state has changed on error and user 1 is left with zero non-revoked
sessions, contradicting the claimed rollback. -/
theorem issue_failure_counterexample :
    createSessionResult
        [{ id := "t1", userId := 1, createdAt := 0, expiresAt := 100, revokedAt := none }]
        1 "t2" 5 105 false true =
      ([{ id := "t1", userId := 1, createdAt := 0, expiresAt := 100,
          revokedAt := some 5 }], true) ∧
    activeFor
        (createSessionResult
          [{ id := "t1", userId := 1, createdAt := 0, expiresAt := 100, revokedAt := none }]
          1 "t2" 5 105 false true).1 1 = [] := by
  constructor <;> decide

/-- C4 amended: on error the caller receives the error and sets no cookie;
a failing revoke statement leaves the table unchanged; but a failing insert
persists the already-committed revocations, leaving the user with zero
non-revoked sessions instead of the pre-call state. -/
theorem issue_failure_semantics
    (t : List Session) (u : Nat) (sid : String) (now expires : Nat) :
    (∀ insertFails, createSessionResult t u sid now expires true insertFails = (t, true)) ∧
    createSessionResult t u sid now expires false true = (revokeActive t u now, true) ∧
    activeFor (revokeActive t u now) u = [] ∧
    createSessionResult t u sid now expires false false =
      (createSession t u sid now expires, false) ∧
    (∀ err : List Session, handleLoginCookie (err, true) sid = none) ∧
    handleLoginCookie (createSessionResult t u sid now expires false false) sid = some sid := by
  refine ⟨fun _ => rfl, rfl, activeFor_revokeActive t u now, rfl, fun _ => rfl, rfl⟩

/-! ### Revocation (C5): `handleLogout` (part_001 line 265) -/

/-- `UPDATE sessions SET revoked_at = CURRENT_TIMESTAMP WHERE id = ?` —
note there is no `AND revoked_at IS NULL` guard, so a second revocation
overwrites the timestamp. -/
def revokeToken (t : List Session) (token : String) (now : Nat) : List Session :=
  t.map fun s => if s.id == token then { s with revokedAt := some now } else s

/-- `handleLogout`: with no cookie nothing is touched; with a cookie the
token is revoked; the `Exec` error is discarded and the handler always
redirects, so no error ever reaches the caller. -/
def handleLogout (t : List Session) (cookie : Option String) (now : Nat) : List Session :=
  match cookie with
  | none => t
  | some token => revokeToken t token now

/-- C5 counterexample: revoking the same token at time 1 and again at time
2 leaves `revoked_at = 2`, not the state produced by one call (which has
`revoked_at = 1`) — re-revocation overwrites the timestamp rather than
being a no-op. -/
theorem revoke_twice_counterexample :
    revokeToken
        (revokeToken
          [{ id := "t", userId := 1, createdAt := 0, expiresAt := 100, revokedAt := none }]
          "t" 1) "t" 2 ≠
      revokeToken
        [{ id := "t", userId := 1, createdAt := 0, expiresAt := 100, revokedAt := none }]
        "t" 1 := by
  decide

/-- C5 amended: revocation is idempotent only at a fixed timestamp —
repeating the call with the same `CURRENT_TIMESTAMP` reproduces the same
table; revoking a token no session carries is a no-op; a missing cookie
leaves the table untouched; and in all cases `handleLogout` surfaces no
error (it is total and always redirects). -/
theorem revoke_idempotent_same_time (t : List Session) (token : String) (now : Nat) :
    revokeToken (revokeToken t token now) token now = revokeToken t token now ∧
    ((∀ s ∈ t, s.id ≠ token) → revokeToken t token now = t) ∧
    handleLogout t none now = t := by
  refine ⟨?_, ?_, rfl⟩
  · unfold revokeToken
    rw [List.map_map]
    apply List.map_congr_left
    intro s _
    by_cases h : s.id = token <;> simp [Function.comp_apply, h]
  · intro h
    unfold revokeToken
    conv_rhs => rw [(List.map_id t).symm]
    apply List.map_congr_left
    intro s hs
    have hne : ¬((s.id == token) = true) := by
      simp only [beq_iff_eq]
      exact h s hs
    rw [if_neg hne]
    rfl

/-- Witness for C5's amended statement at a concrete input. -/
theorem revoke_idempotent_same_time_witness :
    revokeToken
        (revokeToken
          [{ id := "t", userId := 1, createdAt := 0, expiresAt := 100, revokedAt := none }]
          "t" 1) "t" 1 =
      revokeToken
        [{ id := "t", userId := 1, createdAt := 0, expiresAt := 100, revokedAt := none }]
        "t" 1 ∧
    revokeToken
        [{ id := "u", userId := 1, createdAt := 0, expiresAt := 100, revokedAt := none }]
        "t" 1 =
      [{ id := "u", userId := 1, createdAt := 0, expiresAt := 100, revokedAt := none }] :=
  ⟨(revoke_idempotent_same_time
      [{ id := "t", userId := 1, createdAt := 0, expiresAt := 100, revokedAt := none }]
      "t" 1).1,
   (revoke_idempotent_same_time
      [{ id := "u", userId := 1, createdAt := 0, expiresAt := 100, revokedAt := none }]
      "t" 1).2.1 (by decide)⟩

/-! ### Session validation (C3): `currentUser` (part_001 line 380) -/

/-- One row of the `users` table (`models.User`). -/
structure UserRow where
  id : Nat
  email : String
  username : String
  passwordHash : String
deriving DecidableEq

/-- `GetSession` (queries.go line 53): `SELECT ... FROM sessions WHERE id = ?`. -/
def getSession (t : List Session) (sid : String) : Option Session :=
  t.find? fun s => s.id == sid

/-- `SELECT ... FROM users WHERE id = ?`. -/
def getUserById (us : List UserRow) (uid : Nat) : Option UserRow :=
  us.find? fun u => u.id == uid

/-- `currentUser`: nil when the cookie is absent, the token is unknown,
`RevokedAt` is set, or `ExpiresAt.Before(now)` — a strict comparison —
and otherwise the session's owner as loaded from the users table. -/
def currentUser (us : List UserRow) (t : List Session) (cookie : Option String)
    (now : Nat) : Option UserRow :=
  match cookie with
  | none => none
  | some token =>
    match getSession t token with
    | none => none
    | some s =>
      if s.revokedAt ≠ none ∨ s.expiresAt < now then none
      else getUserById us s.userId

/-- C3 counterexample: at `now = expiresAt` — an `expires_at` that is not
in the future — the code still resolves the token to the owning user,
because `ExpiresAt.Before(now)` is strict; the claim requires Invalid as
soon as now ≥ expires_at. -/
theorem validate_expiry_boundary_counterexample :
    currentUser
        [{ id := 1, email := "a@b.com", username := "alice", passwordHash := "h" }]
        [{ id := "tok", userId := 1, createdAt := 0, expiresAt := 5, revokedAt := none }]
        (some "tok") 5 =
      some { id := 1, email := "a@b.com", username := "alice", passwordHash := "h" } := by
  decide

/-- C3 amended: validation resolves to no identity exactly when the token
is unknown, the session is revoked, or the current time is strictly
greater than `expires_at` (at `now = expires_at` the session still
validates); in every other case, provided each session's owner exists in
the users table (the schema's foreign key), it resolves to the owning
user's identity. -/
theorem validate_invalid_conditions
    (us : List UserRow) (t : List Session) (token : String) (now : Nat)
    (hfk : ∀ s ∈ t, (getUserById us s.userId).isSome = true) :
    (currentUser us t (some token) now = none ↔
      getSession t token = none ∨
        ∃ s, getSession t token = some s ∧ (s.revokedAt ≠ none ∨ s.expiresAt < now)) ∧
    (∀ s, getSession t token = some s → s.revokedAt = none → now ≤ s.expiresAt →
      ∃ u, currentUser us t (some token) now = some u ∧ u.id = s.userId) := by
  rcases hs : getSession t token with _ | s
  · constructor
    · simp [currentUser, hs]
    · intro s hs₂
      cases hs₂
  · have hmem : s ∈ t := List.mem_of_find?_eq_some hs
    constructor
    · constructor
      · intro hnone
        by_cases hc : s.revokedAt ≠ none ∨ s.expiresAt < now
        · exact Or.inr ⟨s, rfl, hc⟩
        · exfalso
          rw [currentUser] at hnone
          simp only [hs] at hnone
          rw [if_neg hc] at hnone
          have := hfk s hmem
          rw [hnone] at this
          cases this
      · rintro (hcon | ⟨s₂, hs₂, hc⟩)
        · cases hcon
        · injection hs₂ with hs₂
          subst hs₂
          rw [currentUser]
          simp only [hs]
          rw [if_pos hc]
    · intro s₂ hs₂ hrev hexp
      have heq : s = s₂ := by injection hs₂
      rw [← heq] at hrev hexp ⊢
      have hc : ¬(s.revokedAt ≠ none ∨ s.expiresAt < now) := by
        rintro (h | h)
        · exact h hrev
        · exact h.not_le hexp
      rw [currentUser]
      simp only [hs]
      rw [if_neg hc]
      have hus := hfk s hmem
      rcases hu : getUserById us s.userId with _ | u
      · rw [hu] at hus
        cases hus
      · refine ⟨u, rfl, ?_⟩
        have := List.find?_some hu
        simpa using this

/-- Witness for C3's amended statement at a concrete input: one second
past expiry the token resolves to no identity. -/
theorem validate_invalid_conditions_witness :
    currentUser
        [{ id := 1, email := "a@b.com", username := "alice", passwordHash := "h" }]
        [{ id := "tok", userId := 1, createdAt := 0, expiresAt := 5, revokedAt := none }]
        (some "tok") 6 = none :=
  (validate_invalid_conditions
      [{ id := 1, email := "a@b.com", username := "alice", passwordHash := "h" }]
      [{ id := "tok", userId := 1, createdAt := 0, expiresAt := 5, revokedAt := none }]
      "tok" 6 (by decide)).1.mpr
    (Or.inr ⟨{ id := "tok", userId := 1, createdAt := 0, expiresAt := 5, revokedAt := none },
      by decide, Or.inr (by decide)⟩)

/-! ### Credential store (C7): `CreateUser` (queries.go line 16) -/

/-- `strings.Contains`: `substr` occurs somewhere inside `s`. -/
def goContains (s substr : String) : Bool :=
  s.toList.tails.any fun t => substr.toList.isPrefixOf t

/-- Modelled SQLite driver behavior for `INSERT INTO users ...`: a violated
UNIQUE constraint aborts the insert with the documented message
`UNIQUE constraint failed: users.<column>` naming the violated column
(the email constraint is declared first in the schema). -/
def sqliteInsertUser (us : List UserRow) (email username passwordHash : String) :
    Except String (List UserRow) :=
  if (us.any fun u => u.email == email) = true then
    .error "UNIQUE constraint failed: users.email"
  else if (us.any fun u => u.username == username) = true then
    .error "UNIQUE constraint failed: users.username"
  else
    .ok (us ++ [{ id := us.length + 1, email := email, username := username,
                  passwordHash := passwordHash }])

/-- Outcome of `CreateUser` as seen by the caller. -/
inductive CreateUserResult
  | ok (users : List UserRow)
  | errDuplicateEmail
  | errDuplicateUsername
  | errOther (msg : String)
deriving DecidableEq

/-- `CreateUser`: run the insert; on a non-empty error message, map it by
substring matching — the email constraint text first, then the username
one — to the two distinguished errors. -/
def CreateUser (us : List UserRow) (email username passwordHash : String) :
    CreateUserResult :=
  match sqliteInsertUser us email username passwordHash with
  | .ok us₂ => .ok us₂
  | .error str =>
    if str == "" then .errOther str
    else if goContains str "UNIQUE constraint failed: users.email" then
      .errDuplicateEmail
    else if goContains str "UNIQUE constraint failed: users.username" then
      .errDuplicateUsername
    else .errOther str

/-- C7: creating a user with an already-taken email fails with the
distinguished duplicate-email error; with a fresh email but a taken
username it fails with the distinguished duplicate-username error; with
both fresh the row is inserted. -/
theorem createUser_duplicate_detection
    (us : List UserRow) (email username passwordHash : String) :
    ((us.any fun u => u.email == email) = true →
      CreateUser us email username passwordHash = .errDuplicateEmail) ∧
    ((us.any fun u => u.email == email) = false →
      (us.any fun u => u.username == username) = true →
      CreateUser us email username passwordHash = .errDuplicateUsername) ∧
    ((us.any fun u => u.email == email) = false →
      (us.any fun u => u.username == username) = false →
      CreateUser us email username passwordHash =
        .ok (us ++ [{ id := us.length + 1, email := email, username := username,
                      passwordHash := passwordHash }])) := by
  refine ⟨?_, ?_, ?_⟩
  · intro h1
    unfold CreateUser sqliteInsertUser
    rw [h1]
    rfl
  · intro h1 h2
    unfold CreateUser sqliteInsertUser
    rw [h1, h2]
    rfl
  · intro h1 h2
    unfold CreateUser sqliteInsertUser
    rw [h1, h2]
    rfl

/-- Witness for C7 at the claim's concrete inputs: after `(a@x.com, bob)`
is registered, `(a@x.com, carol)` hits the email duplicate and
`(c@x.com, bob)` hits the username duplicate. -/
theorem createUser_duplicate_detection_witness :
    CreateUser [{ id := 1, email := "a@x.com", username := "bob", passwordHash := "h" }]
        "a@x.com" "carol" "h2" = .errDuplicateEmail ∧
    CreateUser [{ id := 1, email := "a@x.com", username := "bob", passwordHash := "h" }]
        "c@x.com" "bob" "h2" = .errDuplicateUsername :=
  ⟨(createUser_duplicate_detection
      [{ id := 1, email := "a@x.com", username := "bob", passwordHash := "h" }]
      "a@x.com" "carol" "h2").1 (by decide),
   (createUser_duplicate_detection
      [{ id := 1, email := "a@x.com", username := "bob", passwordHash := "h" }]
      "c@x.com" "bob" "h2").2.1 (by decide) (by decide)⟩

/-! ### Reaction on a missing target (C6) -/

/-- `handlePostLike` (part_001 line 350): after authentication it checks
only that `value` is `1` or `-1` and then calls `TogglePostLike`.  The
`posts` table is never consulted, and `db.Open` (part_002) opens SQLite
without enabling foreign-key enforcement, so the schema's declared
`FOREIGN KEY(post_id) REFERENCES posts(id)` is inert: the insert succeeds
whether or not the post exists.  Returns `none` for an HTTP 400 and the
updated `post_likes` table on success. -/
def handlePostLike (posts : List Nat) (likes : List PostLikeRow)
    (userID postID : Nat) (value : Int) : Option (List PostLikeRow) :=
  if value ≠ 1 ∧ value ≠ -1 then none
  else some (togglePostLike likes postID userID value)

/-- C6 at the failing input: with no posts at all, liking post 1 succeeds
and records a reaction row for the nonexistent target, instead of failing
with a target-not-found condition. -/
theorem toggle_missing_target_recorded :
    handlePostLike [] [] 7 1 1 = some [{ postId := 1, userId := 7, value := 1 }] := by
  decide

end Forum
